import Mathlib

/-!
Verification of the AppImage install/uninstall orchestration core of the
app-hub repository (src-tauri).  The commands `install_app`, `read_app_list`
and `uninstall_app` live in `src/src-tauri/src/commands/app_image_commands.rs`;
the helper modules they call (DesktopFileBuilder, desktop_file_helpers,
file_system_helper, app_images_helpers, app_settings_commands) are not part of
the sources available here, so those collaborators are modelled from the
specification (each such definition carries a doc comment that starts with
"Modelled from the spec:").  Everything else is a direct shallow embedding of
the Rust control flow: fallible calls become `Except`, the `.unwrap()` /
`.expect()` calls that can abort the process become a distinguished
`panicked` outcome, and the registration directory is an explicit association
list threaded through the orchestrators.
-/

namespace AppHub

/-! ## Launcher descriptor model -/

/-- The argument token appended to `Exec` when the no-sandbox flag is set. -/
def noSandboxToken : String := " --no-sandbox"

/-- Modelled from the spec: the in-memory launcher descriptor built by
`DesktopFileBuilder` (helpers/desktop_file_builder.rs, not under src/).
Required fields `name` and `exec`, optional `icon_path`, unknown key/value
pairs preserved in order, and the `no_sandbox` flag. -/
structure DesktopFileBuilder where
  name : Option String
  exec : Option String
  icon_path : Option String
  other_fields : List (String × String)
  no_sandbox : Bool
deriving Repr, DecidableEq

/-- Modelled from the spec: pure in-memory mutator `set_exec`. -/
def set_exec (d : DesktopFileBuilder) (e : String) : DesktopFileBuilder :=
  { d with exec := some e }

/-- Modelled from the spec: pure in-memory mutator `set_icon`. -/
def set_icon (d : DesktopFileBuilder) (i : String) : DesktopFileBuilder :=
  { d with icon_path := some i }

/-- Modelled from the spec: pure in-memory mutator `set_no_sandbox`. -/
def set_no_sandbox (d : DesktopFileBuilder) (b : Bool) : DesktopFileBuilder :=
  { d with no_sandbox := b }

/-- Modelled from the spec: the serialized `Exec` value; when `no_sandbox` is
set the token is appended exactly once, at serialization time. -/
def execValue (d : DesktopFileBuilder) : String :=
  if d.no_sandbox then d.exec.getD "" ++ noSandboxToken else d.exec.getD ""

/-- One `key=value` line for a preserved unknown field. -/
def fieldLine (kv : String × String) : String := kv.1 ++ "=" ++ kv.2

/-- Modelled from the spec: serialization to the line-oriented key/value
format: the section header, the required fields first, then the preserved
unknown fields in their original relative order.  Text is represented as the
list of its lines. -/
def serializeLines (d : DesktopFileBuilder) : List String :=
  ["[Desktop Entry]",
   "Name=" ++ d.name.getD "",
   "Exec=" ++ execValue d]
  ++ (match d.icon_path with
      | some i => ["Icon=" ++ i]
      | none => [])
  ++ d.other_fields.map fieldLine

/-- Split a character list at the first occurrence of the separator `'='`,
returning the key (before it) and the value (everything after it). -/
def splitEqAux : List Char → Option (List Char × List Char)
  | [] => none
  | c :: cs =>
    if c = '=' then some ([], cs)
    else
      match splitEqAux cs with
      | some (k, v) => some (c :: k, v)
      | none => none

/-- Split a `key=value` line into key and value at the first `'='`. -/
def splitEq (s : String) : Option (String × String) :=
  match splitEqAux s.data with
  | some (k, v) => some (⟨k⟩, ⟨v⟩)
  | none => none

/-- Whether the serialized exec value carries a trailing no-sandbox token. -/
def hasSandboxSuffix (s : String) : Bool :=
  decide (noSandboxToken.data <:+ s.data)

/-- Remove one trailing no-sandbox token. -/
def stripSandboxSuffix (s : String) : String :=
  ⟨s.data.take (s.data.length - noSandboxToken.data.length)⟩

/-- The empty builder the parser folds over. -/
def emptyBuilder : DesktopFileBuilder :=
  { name := none, exec := none, icon_path := none, other_fields := [], no_sandbox := false }

/-- Modelled from the spec: how one `key=value` line updates the builder.
Known keys fill the corresponding field; an `Exec` value with a trailing
no-sandbox token sets the flag and strips the token; unknown keys are
preserved opaquely in order; a line without `'='` is ignored. -/
def applyLine (d : DesktopFileBuilder) (line : String) : DesktopFileBuilder :=
  match splitEq line with
  | none => d
  | some (k, v) =>
    if k = "Name" then { d with name := some v }
    else if k = "Exec" then
      if hasSandboxSuffix v then
        { d with exec := some (stripSandboxSuffix v), no_sandbox := true }
      else { d with exec := some v }
    else if k = "Icon" then { d with icon_path := some v }
    else { d with other_fields := d.other_fields ++ [(k, v)] }

/-- Parse errors of the descriptor model. -/
inductive ParseError
  | MissingSection
  | MissingRequiredField (key : String)
deriving Repr, DecidableEq

/-- Modelled from the spec: `parse(text, strict)` — a recognized section
header line followed by `key=value` lines; under strict mode the required
keys `Name` and `Exec` must be present. -/
def parseLines (lines : List String) (strict : Bool) :
    Except ParseError DesktopFileBuilder :=
  match lines with
  | [] => .error .MissingSection
  | header :: rest =>
    if header = "[Desktop Entry]" then
      let d := rest.foldl applyLine emptyBuilder
      if strict then
        match d.name, d.exec with
        | none, _ => .error (.MissingRequiredField "Name")
        | some _, none => .error (.MissingRequiredField "Exec")
        | some _, some _ => .ok d
      else .ok d
    else .error .MissingSection

/-- A preserved unknown key is well formed: it contains no `'='` and does not
collide with a known key. -/
def keyOk (k : String) : Bool :=
  !k.data.contains '=' && k != "Name" && k != "Exec" && k != "Icon"

/-- Validity of a descriptor produced by this model: both required fields are
present, the raw exec value does not already end in the no-sandbox token when
the flag is unset (so the flag round-trips unambiguously), and preserved
unknown keys are well formed. -/
def validDescriptor (d : DesktopFileBuilder) : Bool :=
  d.name.isSome && d.exec.isSome
  && (d.no_sandbox || !hasSandboxSuffix (d.exec.getD ""))
  && d.other_fields.all (fun kv => keyOk kv.1)

/-! ### Round-trip lemmas for the descriptor model -/

theorem splitEqAux_append (k v : List Char) (hk : ('=' : Char) ∉ k) :
    splitEqAux (k ++ '=' :: v) = some (k, v) := by
  induction k with
  | nil => simp [splitEqAux]
  | cons c cs ih =>
    rw [List.mem_cons, not_or] at hk
    simp [splitEqAux, Ne.symm hk.1, ih hk.2]

theorem splitEq_append (k v : String) (hk : ('=' : Char) ∉ k.data) :
    splitEq (k ++ "=" ++ v) = some (k, v) := by
  have hdata : (k ++ "=" ++ v).data = k.data ++ '=' :: v.data := by
    rw [String.data_append, String.data_append, List.append_assoc]
    rfl
  simp [splitEq, hdata, splitEqAux_append k.data v.data hk]

theorem splitEq_name (n : String) : splitEq ("Name=" ++ n) = some ("Name", n) :=
  splitEq_append "Name" n (by decide)

theorem splitEq_exec (v : String) : splitEq ("Exec=" ++ v) = some ("Exec", v) :=
  splitEq_append "Exec" v (by decide)

theorem splitEq_icon (i : String) : splitEq ("Icon=" ++ i) = some ("Icon", i) :=
  splitEq_append "Icon" i (by decide)

theorem hasSandboxSuffix_append (e : String) :
    hasSandboxSuffix (e ++ noSandboxToken) = true := by
  simp only [hasSandboxSuffix, decide_eq_true_iff, String.data_append]
  exact List.suffix_append e.data noSandboxToken.data

theorem stripSandboxSuffix_append (e : String) :
    stripSandboxSuffix (e ++ noSandboxToken) = e := by
  have h : (e ++ noSandboxToken).data.take
      ((e ++ noSandboxToken).data.length - noSandboxToken.data.length) = e.data := by
    rw [String.data_append, List.length_append, Nat.add_sub_cancel, List.take_left]
  simp [stripSandboxSuffix, h]

theorem applyLine_name (d : DesktopFileBuilder) (n : String) :
    applyLine d ("Name=" ++ n) = { d with name := some n } := by
  simp [applyLine, splitEq_name n]

theorem applyLine_exec_plain (d : DesktopFileBuilder) (v : String)
    (hv : hasSandboxSuffix v = false) :
    applyLine d ("Exec=" ++ v) = { d with exec := some v } := by
  simp [applyLine, splitEq_exec v, hv]

theorem applyLine_exec_sandbox (d : DesktopFileBuilder) (e : String) :
    applyLine d ("Exec=" ++ (e ++ noSandboxToken))
      = { d with exec := some e, no_sandbox := true } := by
  simp [applyLine, splitEq_exec (e ++ noSandboxToken), hasSandboxSuffix_append,
    stripSandboxSuffix_append]

theorem applyLine_icon (d : DesktopFileBuilder) (i : String) :
    applyLine d ("Icon=" ++ i) = { d with icon_path := some i } := by
  simp [applyLine, splitEq_icon i]

theorem applyLine_field (d : DesktopFileBuilder) (kv : String × String)
    (h : keyOk kv.1 = true) :
    applyLine d (fieldLine kv) = { d with other_fields := d.other_fields ++ [kv] } := by
  simp only [keyOk, Bool.and_eq_true, Bool.not_eq_true', bne_iff_ne] at h
  obtain ⟨⟨⟨hc, h1⟩, h2⟩, h3⟩ := h
  have hmem : ('=' : Char) ∉ kv.1.data := by simpa using hc
  simp [applyLine, fieldLine, splitEq_append kv.1 kv.2 hmem, h1, h2, h3]

theorem foldl_fieldLines (l : List (String × String)) (d : DesktopFileBuilder)
    (h : l.all (fun kv => keyOk kv.1) = true) :
    (l.map fieldLine).foldl applyLine d
      = { d with other_fields := d.other_fields ++ l } := by
  induction l generalizing d with
  | nil => simp
  | cons kv rest ih =>
    simp only [List.all_cons, Bool.and_eq_true] at h
    rw [List.map_cons, List.foldl_cons, applyLine_field d kv h.1, ih _ h.2]
    simp

/-- The round-trip core: parsing the serialization of a valid descriptor under
strict mode recovers the descriptor. -/
theorem parse_serialize (d : DesktopFileBuilder) (h : validDescriptor d = true) :
    parseLines (serializeLines d) true = .ok d := by
  obtain ⟨nameF, execF, iconF, othersF, flagF⟩ := d
  simp only [validDescriptor, Bool.and_eq_true] at h
  obtain ⟨⟨⟨hname, hexec⟩, hflag⟩, hothers⟩ := h
  obtain ⟨n, rfl⟩ := Option.isSome_iff_exists.mp hname
  obtain ⟨e, rfl⟩ := Option.isSome_iff_exists.mp hexec
  cases flagF with
  | false =>
    have hplain : hasSandboxSuffix e = false := by
      simpa using hflag
    cases iconF with
    | none =>
      simp [serializeLines, execValue, parseLines, emptyBuilder, applyLine_name,
        applyLine_exec_plain _ _ hplain, foldl_fieldLines _ _ hothers]
    | some i =>
      simp [serializeLines, execValue, parseLines, emptyBuilder, applyLine_name,
        applyLine_exec_plain _ _ hplain, applyLine_icon,
        foldl_fieldLines _ _ hothers]
  | true =>
    cases iconF with
    | none =>
      simp [serializeLines, execValue, parseLines, emptyBuilder, applyLine_name,
        applyLine_exec_sandbox, foldl_fieldLines _ _ hothers]
    | some i =>
      simp [serializeLines, execValue, parseLines, emptyBuilder, applyLine_name,
        applyLine_exec_sandbox, applyLine_icon, foldl_fieldLines _ _ hothers]

/-! ## Orchestrator state and environment -/

/-- Result of one command invocation: the Rust `Result<T, String>` outcomes
plus a distinguished outcome for a process abort via `unwrap`/`expect`. -/
inductive Outcome (α : Type)
  | ok (val : α)
  | err (msg : String)
  | panicked (msg : String)
deriving Repr, DecidableEq

/-- The registration directory: an association list from descriptor file path
to descriptor file contents (as lines). -/
abbrev FS := List (String × List String)

/-- The settings record returned by `read_settings`
(app_settings_commands.rs, not under src/): the configured install directory
is optional — `install_app` unwraps it. -/
structure Settings where
  install_path : Option String
deriving Repr, DecidableEq

/-- The install request (models/request_installation.rs). -/
structure RequestInstallation where
  file_path : String
  no_sandbox : Option Bool
deriving Repr, DecidableEq

/-- Split a character list on a separator character. -/
def splitChar (sep : Char) : List Char → List (List Char)
  | [] => [[]]
  | c :: cs =>
    let r := splitChar sep cs
    if c = sep then [] :: r
    else
      match r with
      | [] => [[c]]
      | g :: gs => (c :: g) :: gs

/-- The `/`-separated components of a path. -/
def pathComponents (p : String) : List String :=
  (splitChar '/' p.data).map (fun l => (⟨l⟩ : String))

/-- `PathBuf::file_name`: the final normal component of the path, if any. -/
def fileNameOf (p : String) : Option String :=
  match ((pathComponents p).filter (fun s => s != "" && s != ".")).getLast? with
  | none => none
  | some c => if c = ".." then none else some c

/-- `PathBuf::parent`: the path with its final component removed, if any. -/
def parentOf (p : String) : Option String :=
  match (pathComponents p).dropLast with
  | [] => none
  | c :: cs => some (String.intercalate "/" (c :: cs))

/-- `PathBuf::join` with a relative component: insert a separator unless the
directory already ends with one. -/
def joinPath (dir file : String) : String :=
  if dir.data.getLast? = some '/' then dir ++ file else dir ++ "/" ++ file

/-- The exec value `install_app` writes at the DescriptorRewrite step:
`format!("{}{}", apps_installation_path, file_name)` — a plain string
concatenation, with no path separator inserted
(app_image_commands.rs lines 113–117). -/
def rewrittenExec (apps_installation_path file_name : String) : String :=
  apps_installation_path ++ file_name

/-- Results of the external collaborators `install_app` calls, in pipeline
order.  Each is a black-box contract (helpers not under src/), so its result
is an input of the model. -/
structure InstallEnv where
  read_settings : Except String Settings
  extract_desktop_file : Except String Unit
  find_desktop_file_in_dir : Except String String
  parse_desktop_entry : Except String DesktopFileBuilder
  extract_all : Except String Unit
  install_icons : Except String String
  desktop_file_location : Except String String
  install_app_image : Except String Unit
  rm_dir_ok : Bool

/-- Modelled from the spec: `DesktopFileBuilder::write_to_file`
(desktop_file_builder.rs, not under src/) writes the serialized descriptor to
the target path and fails rather than overwrite when the target already
exists (name collision ⇒ `AlreadyInstalledError`); on failure the store is
untouched. -/
def writeDesktopFile (fs : FS) (path : String) (lines : List String) :
    Except String FS :=
  match fs.lookup path with
  | some _ => .error "AlreadyInstalledError"
  | none => .ok ((path, lines) :: fs)

/-- Shallow embedding of `install_app`
(app_image_commands.rs lines 14–162).  Control flow is translated match by
match: every `return Err` becomes `Outcome.err`, the `unwrap`/`expect` calls
become `Outcome.panicked`, and the registration directory `fs` is threaded
through the descriptor write.  `add_executable_permission` (line 22) has its
result discarded by the source, so it does not appear. -/
def install_app (env : InstallEnv) (req : RequestInstallation) (fs : FS) :
    Outcome String × FS :=
  match env.read_settings with
  | .error e => (.err e, fs)
  | .ok settings =>
    match settings.install_path with
    | none => (.panicked "called Option::unwrap on a None value", fs)
    | some apps_installation_path =>
      match fileNameOf req.file_path with
      | none => (.panicked "Failed to get file name", fs)
      | some file_name =>
        match parentOf req.file_path with
        | none => (.panicked "Failed to get directory", fs)
        | some _dir =>
          match env.extract_desktop_file with
          | .error e => (.err e, fs)
          | .ok _ =>
            match env.find_desktop_file_in_dir with
            | .error e => (.err e, fs)
            | .ok _desktop_file_path =>
              match env.parse_desktop_entry with
              | .error e => (.err e, fs)
              | .ok db0 =>
                match env.extract_all with
                | .error e => (.err e, fs)
                | .ok _ =>
                  match env.install_icons with
                  | .error e => (.err e, fs)
                  | .ok _icon =>
                    let db1 := set_exec db0
                      (rewrittenExec apps_installation_path file_name)
                    match env.desktop_file_location with
                    | .error e => (.err e, fs)
                    | .ok loc =>
                      match db1.name with
                      | none => (.panicked "called Option::unwrap on a None value", fs)
                      | some nm =>
                        let desktop_entry_path := joinPath loc (nm ++ ".desktop")
                        let db2 := if req.no_sandbox = some true
                          then set_no_sandbox db1 true else db1
                        match writeDesktopFile fs desktop_entry_path
                            (serializeLines db2) with
                        | .error e => (.err e, fs)
                        | .ok fs2 =>
                          match env.install_app_image with
                          | .error e => (.err e, fs2)
                          | .ok _ =>
                            if env.rm_dir_ok then
                              (.ok "Installation successful", fs2)
                            else
                              (.panicked "Failed to remove squashfs-root directory", fs2)

/-! ## Uninstall orchestrator -/

/-- The desktop entry `find_desktop_entry` returns: the referenced binary and
icon paths (models/*, not under src/). -/
structure DesktopEntry where
  exec : String
  icon_path : String
deriving Repr, DecidableEq

/-- The listed-app record passed to `uninstall_app` (models/app_list.rs). -/
structure App where
  name : String
  exec : String
  icon_path : String
deriving Repr, DecidableEq

/-- The uninstall world: the registration store as an association list from
package name to the entry its descriptor carries, and the set of existing
plain files (binaries and icons). -/
structure UninstallWorld where
  entries : List (String × DesktopEntry)
  files : List String
deriving Repr, DecidableEq

/-- Injected I/O failures for the three removal steps of `uninstall_app`
(the helpers performing them are not under src/, so an I/O error is an input
of the model). -/
structure UninstallEnv where
  rm_exec_fails : Bool
  rm_icon_fails : Bool
  delete_desktop_fails : Bool
deriving Repr, DecidableEq

/-- Modelled from the spec: `find_desktop_entry` / `find_by_name`
(desktop_file_helpers.rs, not under src/): scan the registration directory
for the descriptor whose name equals the query; fail with `NotFoundError`
when none matches, and report rather than resolve an ambiguous state when
more than one matches. -/
def find_desktop_entry (entries : List (String × DesktopEntry)) (name : String) :
    Except String DesktopEntry :=
  match entries.filter (fun kv => kv.1 == name) with
  | [] => .error "NotFoundError"
  | [kv] => .ok kv.2
  | _ => .error "Ambiguous desktop entries"

/-- Modelled from the spec: `rm_file` (file_system_helper.rs, not under
src/): remove the file when present and return whether a file was actually
removed (removing an absent file is not an error at this layer); `fail`
injects an I/O failure, which is surfaced as an error and leaves the files
untouched. -/
def rm_file (fail : Bool) (files : List String) (path : String) :
    Except String (Bool × List String) :=
  if fail then .error "IOError"
  else if path ∈ files then .ok (true, files.erase path)
  else .ok (false, files)

/-- Modelled from the spec: `delete_desktop_file_by_name` / `delete_by_name`
(desktop_file_helpers.rs, not under src/): locate and remove the descriptor
file, returning whether a file was actually removed (idempotent); `fail`
injects an I/O failure. -/
def delete_desktop_file_by_name (fail : Bool)
    (entries : List (String × DesktopEntry)) (name : String) :
    Except String (Bool × List (String × DesktopEntry)) :=
  if fail then .error "IOError"
  else
    match entries.filter (fun kv => kv.1 == name) with
    | [] => .ok (false, entries)
    | _ => .ok (true, entries.filter (fun kv => kv.1 != name))

/-- Shallow embedding of `uninstall_app`
(app_image_commands.rs lines 171–227), match by match: locate the descriptor
(early `Err` on failure), remove the binary at `exec` (early `Err` on an I/O
error), remove the icon (early `Err` on an I/O error; a `false` result is
only warned about), remove the descriptor file, and succeed exactly when
both the binary and the descriptor removals returned `true`. -/
def uninstall_app (env : UninstallEnv) (w : UninstallWorld) (app : App) :
    Outcome Bool × UninstallWorld :=
  match find_desktop_entry w.entries app.name with
  | .error e => (.err e, w)
  | .ok desktop_entry =>
    match rm_file env.rm_exec_fails w.files desktop_entry.exec with
    | .error e => (.err e, w)
    | .ok (app_removed, files1) =>
      match rm_file env.rm_icon_fails files1 desktop_entry.icon_path with
      | .error e => (.err e, { w with files := files1 })
      | .ok (_icon_removed, files2) =>
        match delete_desktop_file_by_name env.delete_desktop_fails
            w.entries app.name with
        | .error e => (.err e, { w with files := files2 })
        | .ok (desktop_removed, entries2) =>
          if app_removed && desktop_removed then
            (.ok true, { entries := entries2, files := files2 })
          else
            (.err "Failed to remove app", { entries := entries2, files := files2 })

/-! ## Helper lemmas for the orchestrator proofs -/

theorem set_exec_name (d : DesktopFileBuilder) (e : String) :
    (set_exec d e).name = d.name := rfl

theorem rm_file_no_fail (files : List String) (path : String) :
    rm_file false files path
      = .ok (decide (path ∈ files),
          if path ∈ files then files.erase path else files) := by
  unfold rm_file
  by_cases h : path ∈ files <;> simp [h]

theorem find_desktop_entry_filter_ne_nil (entries : List (String × DesktopEntry))
    (name : String) (de : DesktopEntry)
    (h : find_desktop_entry entries name = .ok de) :
    entries.filter (fun kv => kv.1 == name) ≠ [] := by
  unfold find_desktop_entry at h
  cases hf : entries.filter (fun kv => kv.1 == name) with
  | nil => rw [hf] at h; exact Except.noConfusion h
  | cons a l => simp

theorem delete_desktop_file_found (entries : List (String × DesktopEntry))
    (name : String) (hne : entries.filter (fun kv => kv.1 == name) ≠ []) :
    delete_desktop_file_by_name false entries name
      = .ok (true, entries.filter (fun kv => kv.1 != name)) := by
  unfold delete_desktop_file_by_name
  cases hf : entries.filter (fun kv => kv.1 == name) with
  | nil => exact absurd hf hne
  | cons a l => simp

/-! ## Claims -/

/-- Claim C3: for every descriptor produced by the launcher descriptor model
that is valid (required fields present, flag/exec unambiguous, well-formed
preserved keys), parsing the result of serializing it under strict mode
yields the descriptor back field-for-field, the preserved unknown keys in
their original relative order. -/
theorem C3_roundtrip (d : DesktopFileBuilder) (h : validDescriptor d = true) :
    parseLines (serializeLines d) true = .ok d :=
  parse_serialize d h

/-- A concrete valid descriptor carrying two preserved unknown keys and the
no-sandbox flag, exercising the round trip. -/
def dRound : DesktopFileBuilder :=
  { name := some "App", exec := some "/home/u/Apps/App.AppImage",
    icon_path := some "/icons/app.png",
    other_fields := [("Comment", "an app"), ("Terminal", "false")],
    no_sandbox := true }

theorem C3_roundtrip_witness :
    validDescriptor dRound = true
    ∧ parseLines (serializeLines dRound) true = .ok dRound :=
  ⟨by decide, C3_roundtrip dRound (by decide)⟩

/-- Claim C4: setting the no-sandbox flag twice and serializing produces the
same serialized lines (in particular the same exec value) as setting it once,
and the serialized exec value of a descriptor with the flag set is the raw
exec value with the token appended exactly once. -/
theorem C4_no_sandbox_once (d : DesktopFileBuilder) (b : Bool) :
    serializeLines (set_no_sandbox (set_no_sandbox d b) b)
        = serializeLines (set_no_sandbox d b)
    ∧ execValue (set_no_sandbox d true) = d.exec.getD "" ++ noSandboxToken := by
  exact ⟨rfl, by simp [execValue, set_no_sandbox]⟩

/-- A parsed embedded descriptor used by the concrete install scenarios. -/
def dbApp : DesktopFileBuilder :=
  { name := some "App", exec := some "AppRun", icon_path := none,
    other_fields := [], no_sandbox := false }

/-- A fully successful collaborator environment with the spec scenario's
install directory (trailing separator). -/
def envHappy : InstallEnv :=
  { read_settings := .ok ⟨some "/home/u/Apps/"⟩,
    extract_desktop_file := .ok (),
    find_desktop_file_in_dir := .ok "/tmp/squashfs-root/App.desktop",
    parse_desktop_entry := .ok dbApp,
    extract_all := .ok (),
    install_icons := .ok "/icons/app.png",
    desktop_file_location := .ok "/home/u/.local/share/applications",
    install_app_image := .ok (),
    rm_dir_ok := true }

/-- The same environment with an install directory that does not end in a
path separator. -/
def envNoSlash : InstallEnv :=
  { envHappy with read_settings := .ok ⟨some "/home/u/Apps"⟩ }

/-- The spec scenario's install request. -/
def reqApp : RequestInstallation :=
  { file_path := "/tmp/App.AppImage", no_sandbox := none }

/-- Claim C1 counterexample: with configured install directory
`/home/u/Apps` (no trailing separator) the install succeeds and persists a
descriptor whose exec value is the plain concatenation
`/home/u/AppsApp.AppImage`, which is not the path join
`/home/u/Apps/App.AppImage` the claim prescribes. -/
theorem C1_counterexample :
    (install_app envNoSlash reqApp []).2.lookup
        "/home/u/.local/share/applications/App.desktop"
      = some ["[Desktop Entry]", "Name=App", "Exec=/home/u/AppsApp.AppImage"]
    ∧ "/home/u/AppsApp.AppImage" ≠ joinPath "/home/u/Apps" "App.AppImage" :=
  ⟨rfl, by decide⟩

/-- Claim C1 (amended): for every install request that reaches the
DescriptorRewrite stage, the descriptor's exec field is set to the plain
string concatenation of the configured install directory and the original
package file name, with no separator inserted; this coincides with the path
join the claim states exactly when the install directory already ends with a
separator, as it does in the spec scenario. -/
theorem C1_amended (env : InstallEnv) (req : RequestInstallation) (fs : FS)
    (p f dir dfp icon loc nm : String) (db : DesktopFileBuilder)
    (h1 : env.read_settings = .ok ⟨some p⟩)
    (h2 : fileNameOf req.file_path = some f)
    (h3 : parentOf req.file_path = some dir)
    (h4 : env.extract_desktop_file = .ok ())
    (h5 : env.find_desktop_file_in_dir = .ok dfp)
    (h6 : env.parse_desktop_entry = .ok db)
    (h7 : env.extract_all = .ok ())
    (h8 : env.install_icons = .ok icon)
    (h9 : env.desktop_file_location = .ok loc)
    (h10 : db.name = some nm)
    (h11 : req.no_sandbox ≠ some true)
    (h12 : fs.lookup (joinPath loc (nm ++ ".desktop")) = none) :
    (install_app env req fs).2.lookup (joinPath loc (nm ++ ".desktop"))
      = some (serializeLines (set_exec db (rewrittenExec p f)))
    ∧ (set_exec db (rewrittenExec p f)).exec = some (p ++ f)
    ∧ (p.data.getLast? = some '/' → rewrittenExec p f = joinPath p f) := by
  refine ⟨?_, rfl, ?_⟩
  · have hw : writeDesktopFile fs (joinPath loc (nm ++ ".desktop"))
        (serializeLines (set_exec db (rewrittenExec p f)))
        = .ok ((joinPath loc (nm ++ ".desktop"),
            serializeLines (set_exec db (rewrittenExec p f))) :: fs) := by
      simp [writeDesktopFile, h12]
    simp only [install_app, h1, h2, h3, h4, h5, h6, h7, h8, h9, set_exec_name,
      h10, h11, if_neg, hw]
    cases env.install_app_image with
    | error e => simp [hw, List.lookup]
    | ok u =>
      cases hrm : env.rm_dir_ok <;> simp [hw, List.lookup]
  · intro hp
    simp [rewrittenExec, joinPath, hp]

theorem C1_amended_witness :
    (install_app envHappy reqApp []).2.lookup
        (joinPath "/home/u/.local/share/applications" ("App" ++ ".desktop"))
      = some (serializeLines
          (set_exec dbApp (rewrittenExec "/home/u/Apps/" "App.AppImage")))
    ∧ (set_exec dbApp (rewrittenExec "/home/u/Apps/" "App.AppImage")).exec
        = some ("/home/u/Apps/" ++ "App.AppImage")
    ∧ (("/home/u/Apps/" : String).data.getLast? = some '/' →
        rewrittenExec "/home/u/Apps/" "App.AppImage"
          = joinPath "/home/u/Apps/" "App.AppImage") :=
  C1_amended envHappy reqApp [] "/home/u/Apps/" "App.AppImage" "/tmp"
    "/tmp/squashfs-root/App.desktop" "/icons/app.png"
    "/home/u/.local/share/applications" "App" dbApp
    rfl rfl rfl rfl rfl rfl rfl rfl rfl rfl (by decide) rfl

/-- Claim C5: an install whose package name collides with an already
registered package (the target descriptor file already exists) fails with
`AlreadyInstalledError`, the registration directory is left entirely
unchanged, and in particular the pre-existing descriptor file keeps its exact
contents. -/
theorem C5_already_installed (env : InstallEnv) (req : RequestInstallation)
    (fs : FS) (p f dir dfp icon loc nm : String) (pre : List String)
    (db : DesktopFileBuilder)
    (h1 : env.read_settings = .ok ⟨some p⟩)
    (h2 : fileNameOf req.file_path = some f)
    (h3 : parentOf req.file_path = some dir)
    (h4 : env.extract_desktop_file = .ok ())
    (h5 : env.find_desktop_file_in_dir = .ok dfp)
    (h6 : env.parse_desktop_entry = .ok db)
    (h7 : env.extract_all = .ok ())
    (h8 : env.install_icons = .ok icon)
    (h9 : env.desktop_file_location = .ok loc)
    (h10 : db.name = some nm)
    (h12 : fs.lookup (joinPath loc (nm ++ ".desktop")) = some pre) :
    install_app env req fs = (.err "AlreadyInstalledError", fs)
    ∧ (install_app env req fs).2.lookup (joinPath loc (nm ++ ".desktop"))
        = some pre := by
  have hmain : install_app env req fs = (.err "AlreadyInstalledError", fs) := by
    simp only [install_app, h1, h2, h3, h4, h5, h6, h7, h8, h9, set_exec_name, h10]
    simp [writeDesktopFile, h12]
  exact ⟨hmain, by rw [hmain]; exact h12⟩

/-- The pre-existing descriptor file contents in the collision scenario. -/
def preLines : List String :=
  ["[Desktop Entry]", "Name=App", "Exec=/somewhere/else/App.AppImage"]

theorem C5_already_installed_witness :
    install_app envHappy reqApp
        [("/home/u/.local/share/applications/App.desktop", preLines)]
      = (.err "AlreadyInstalledError",
         [("/home/u/.local/share/applications/App.desktop", preLines)])
    ∧ (install_app envHappy reqApp
        [("/home/u/.local/share/applications/App.desktop", preLines)]).2.lookup
          (joinPath "/home/u/.local/share/applications" ("App" ++ ".desktop"))
        = some preLines :=
  C5_already_installed envHappy reqApp
    [("/home/u/.local/share/applications/App.desktop", preLines)]
    "/home/u/Apps/" "App.AppImage" "/tmp" "/tmp/squashfs-root/App.desktop"
    "/icons/app.png" "/home/u/.local/share/applications" "App" preLines dbApp
    rfl rfl rfl rfl rfl rfl rfl rfl rfl rfl rfl

/-- The successful collaborator environment, but the settings hold no
configured install directory. -/
def envNoPath : InstallEnv :=
  { envHappy with read_settings := .ok ⟨none⟩ }

/-- Claim C6 (code bug): when the settings service supplies no configured
install directory, `install_app` does not return an error result — it aborts
abnormally through `Option::unwrap` on line 26 of app_image_commands.rs. -/
theorem C6_missing_install_path_panics :
    (install_app envNoPath reqApp []).1
      = .panicked "called Option::unwrap on a None value"
    ∧ ∀ e : String, (install_app envNoPath reqApp []).1 ≠ .err e := by
  refine ⟨rfl, ?_⟩
  intro e h
  rw [show (install_app envNoPath reqApp []).1
      = Outcome.panicked "called Option::unwrap on a None value" from rfl] at h
  exact Outcome.noConfusion h

/-- The successful collaborator environment, but removing the scratch
content root fails. -/
def envRmFails : InstallEnv :=
  { envHappy with rm_dir_ok := false }

/-- Claim C7 (code bug): when BinaryInstall has succeeded and the Cleanup
stage fails to remove the scratch content root, `install_app` does not return
success with the failure merely logged — it aborts abnormally through
`.expect` on line 159 of app_image_commands.rs. -/
theorem C7_cleanup_failure_panics :
    (install_app envRmFails reqApp []).1
      = .panicked "Failed to remove squashfs-root directory"
    ∧ ∀ s : String, (install_app envRmFails reqApp []).1 ≠ .ok s := by
  refine ⟨rfl, ?_⟩
  intro s h
  rw [show (install_app envRmFails reqApp []).1
      = Outcome.panicked "Failed to remove squashfs-root directory" from rfl] at h
  exact Outcome.noConfusion h

/-- Claim C9: when DescriptorPersist succeeds and the subsequent
BinaryInstall stage fails, the install aborts with exactly the BinaryInstall
error, and the just-persisted descriptor file is left in place unchanged in
the registration directory — no rollback occurs. -/
theorem C9_orphaned_descriptor (env : InstallEnv) (req : RequestInstallation)
    (fs : FS) (p f dir dfp icon loc nm e : String) (db : DesktopFileBuilder)
    (h1 : env.read_settings = .ok ⟨some p⟩)
    (h2 : fileNameOf req.file_path = some f)
    (h3 : parentOf req.file_path = some dir)
    (h4 : env.extract_desktop_file = .ok ())
    (h5 : env.find_desktop_file_in_dir = .ok dfp)
    (h6 : env.parse_desktop_entry = .ok db)
    (h7 : env.extract_all = .ok ())
    (h8 : env.install_icons = .ok icon)
    (h9 : env.desktop_file_location = .ok loc)
    (h10 : db.name = some nm)
    (h12 : fs.lookup (joinPath loc (nm ++ ".desktop")) = none)
    (hbin : env.install_app_image = .error e) :
    install_app env req fs
      = (.err e,
         (joinPath loc (nm ++ ".desktop"),
          serializeLines (if req.no_sandbox = some true
            then set_no_sandbox (set_exec db (rewrittenExec p f)) true
            else set_exec db (rewrittenExec p f))) :: fs)
    ∧ (install_app env req fs).2.lookup (joinPath loc (nm ++ ".desktop"))
        = some (serializeLines (if req.no_sandbox = some true
            then set_no_sandbox (set_exec db (rewrittenExec p f)) true
            else set_exec db (rewrittenExec p f))) := by
  have hmain : install_app env req fs
      = (.err e,
         (joinPath loc (nm ++ ".desktop"),
          serializeLines (if req.no_sandbox = some true
            then set_no_sandbox (set_exec db (rewrittenExec p f)) true
            else set_exec db (rewrittenExec p f))) :: fs) := by
    simp only [install_app, h1, h2, h3, h4, h5, h6, h7, h8, h9, set_exec_name,
      h10, hbin]
    simp [writeDesktopFile, h12]
  refine ⟨hmain, ?_⟩
  rw [hmain]
  simp [List.lookup]

/-- The successful collaborator environment, but moving the package binary
into the install directory fails. -/
def envBinFails : InstallEnv :=
  { envHappy with install_app_image := .error "IOError" }

theorem C9_orphaned_descriptor_witness :
    install_app envBinFails reqApp []
      = (.err "IOError",
         (joinPath "/home/u/.local/share/applications" ("App" ++ ".desktop"),
          serializeLines (if reqApp.no_sandbox = some true
            then set_no_sandbox
              (set_exec dbApp (rewrittenExec "/home/u/Apps/" "App.AppImage")) true
            else set_exec dbApp (rewrittenExec "/home/u/Apps/" "App.AppImage"))) :: [])
    ∧ (install_app envBinFails reqApp []).2.lookup
        (joinPath "/home/u/.local/share/applications" ("App" ++ ".desktop"))
        = some (serializeLines (if reqApp.no_sandbox = some true
            then set_no_sandbox
              (set_exec dbApp (rewrittenExec "/home/u/Apps/" "App.AppImage")) true
            else set_exec dbApp (rewrittenExec "/home/u/Apps/" "App.AppImage"))) :=
  C9_orphaned_descriptor envBinFails reqApp [] "/home/u/Apps/" "App.AppImage"
    "/tmp" "/tmp/squashfs-root/App.desktop" "/icons/app.png"
    "/home/u/.local/share/applications" "App" "IOError" dbApp
    rfl rfl rfl rfl rfl rfl rfl rfl rfl rfl rfl rfl

/-- The uninstall scenario world: one registered app whose binary and icon
exist. -/
def worldApp : UninstallWorld :=
  { entries := [("App", ⟨"/home/u/Apps/App.AppImage", "/icons/app.png"⟩)],
    files := ["/home/u/Apps/App.AppImage", "/icons/app.png"] }

/-- The app record the uninstall scenario passes in. -/
def appRec : App :=
  { name := "App", exec := "/home/u/Apps/App.AppImage",
    icon_path := "/icons/app.png" }

/-- Claim C2 counterexample: with the descriptor found, the binary removal
succeeding, and the descriptor removal bound to succeed, an I/O error while
removing the icon alone makes `uninstall_app` return that error — it is not
merely logged. -/
theorem C2_counterexample :
    (uninstall_app ⟨false, true, false⟩ worldApp appRec).1 = .err "IOError"
    ∧ rm_file false worldApp.files "/home/u/Apps/App.AppImage"
        = .ok (true, ["/icons/app.png"])
    ∧ delete_desktop_file_by_name false worldApp.entries "App" = .ok (true, []) :=
  ⟨rfl, rfl, rfl⟩

/-- Claim C2 (amended): for every uninstall that locates a descriptor, when
no removal step raises an I/O error the operation reports success exactly
when the binary removal removed a file (descriptor removal then necessarily
removes the found descriptor); an icon removal that merely reports
no-file-removed is only warned about and never affects the result — but an
icon-removal I/O error aborts the operation with that error. -/
theorem C2_icon_failure (env : UninstallEnv) (w : UninstallWorld) (app : App)
    (de : DesktopEntry)
    (hfind : find_desktop_entry w.entries app.name = .ok de)
    (hex : env.rm_exec_fails = false)
    (hdel : env.delete_desktop_fails = false) :
    (env.rm_icon_fails = false →
      ((uninstall_app env w app).1 = .ok true ↔ de.exec ∈ w.files))
    ∧ (env.rm_icon_fails = true → de.exec ∈ w.files →
      (uninstall_app env w app).1 = .err "IOError") := by
  have hne := find_desktop_entry_filter_ne_nil w.entries app.name de hfind
  have hdel2 := delete_desktop_file_found w.entries app.name hne
  constructor
  · intro hic
    unfold uninstall_app
    simp only [hfind, hex, hic, rm_file_no_fail, hdel, hdel2]
    by_cases hmem : de.exec ∈ w.files <;> simp [hmem]
  · intro hic hmem
    unfold uninstall_app
    simp only [hfind, hex, hic, rm_file_no_fail]
    simp [rm_file, hmem]

theorem C2_icon_failure_witness :
    (false = false →
      ((uninstall_app ⟨false, false, false⟩ worldApp appRec).1 = .ok true ↔
        "/home/u/Apps/App.AppImage" ∈ worldApp.files))
    ∧ (false = true → "/home/u/Apps/App.AppImage" ∈ worldApp.files →
      (uninstall_app ⟨false, false, false⟩ worldApp appRec).1 = .err "IOError") :=
  C2_icon_failure ⟨false, false, false⟩ worldApp appRec
    ⟨"/home/u/Apps/App.AppImage", "/icons/app.png"⟩ rfl rfl rfl

/-- Claim C8: an uninstall invocation with a name for which no descriptor
exists fails with `NotFoundError` and leaves the whole world — registration
store and files — untouched. -/
theorem C8_not_found (env : UninstallEnv) (w : UninstallWorld) (app : App)
    (h : w.entries.filter (fun kv => kv.1 == app.name) = []) :
    uninstall_app env w app = (.err "NotFoundError", w) := by
  unfold uninstall_app find_desktop_entry
  rw [h]

theorem C8_not_found_witness :
    uninstall_app ⟨false, false, false⟩ worldApp ⟨"Ghost", "/x", "/y"⟩
      = (.err "NotFoundError", worldApp) :=
  C8_not_found ⟨false, false, false⟩ worldApp ⟨"Ghost", "/x", "/y"⟩ rfl

/-- Claim C10: whenever `uninstall_app` returns a non-error result, that
result is `true` — the success case carries no additional information. -/
theorem C10_ok_is_true (env : UninstallEnv) (w w2 : UninstallWorld) (app : App)
    (b : Bool) (h : uninstall_app env w app = (.ok b, w2)) : b = true := by
  unfold uninstall_app at h
  repeat' split at h
  all_goals simp_all

theorem C10_ok_is_true_witness :
    uninstall_app ⟨false, false, false⟩ worldApp appRec = (.ok true, ⟨[], []⟩)
    ∧ (true : Bool) = true :=
  ⟨rfl, C10_ok_is_true ⟨false, false, false⟩ worldApp ⟨[], []⟩ appRec true rfl⟩

end AppHub
